import Mathlib

/-!
Verification of the Vital Planet Media Center scan/classify/index pipeline.

Shallow embedding of the Python sources:
  backend/scanner/file_analyzer.py, backend/scanner/data_models.py,
  backend/scanner/asset_scanner.py, backend/scanner/temporal_analyzer.py,
  backend/config/settings.py.

Strings are modelled as `List Char`; Python substring / prefix / suffix
tests become boolean functions on character lists; Python floats in the
confidence / activity scoring are modelled as rationals.
-/

namespace VPMC

/-! ## Basic string helpers (Python `in`, `startswith`, `endswith`, `lower`, `strip`) -/

/-- Python `pat` is a prefix of `s` (case sensitive). -/
def begWith : List Char → List Char → Bool
  | [], _ => true
  | _ :: _, [] => false
  | a :: as, b :: bs => a = b && begWith as bs

/-- Python `pat in s` substring test. -/
def hasSubstr : List Char → List Char → Bool
  | [], pat => pat.isEmpty
  | c :: rest, pat => begWith pat (c :: rest) || hasSubstr rest pat

/-- Python `s.endswith(pat)`. -/
def endWith (pat s : List Char) : Bool := begWith pat.reverse s.reverse

/-- Python `s.lower()` (ASCII case folding, as used by the repository). -/
def pyLower (s : List Char) : List Char := s.map Char.toLower

/-- Characters matched by Python `\s` / `str.strip()` (ASCII whitespace). -/
def isPySpace (c : Char) : Bool :=
  c = ' ' || c = '\t' || c = '\n' || c = '\r' || c = '\x0b' || c = '\x0c'

/-- Python `s.strip()`. -/
def pyStrip (s : List Char) : List Char :=
  ((s.dropWhile isPySpace).reverse.dropWhile isPySpace).reverse

/-- Python `s.strip(chars)`. -/
def pyStripChars (cs : List Char) (s : List Char) : List Char :=
  ((s.dropWhile (cs.contains ·)).reverse.dropWhile (cs.contains ·)).reverse

/-- Does any pattern of the list occur as a substring of `s`? -/
def anySub (pats : List (List Char)) (s : List Char) : Bool :=
  pats.any (fun p => hasSubstr s p)

/-- Does any pattern occur in `s1` or in `s2`?  Mirrors
`any(ind in path_lower or ind in filename_lower for ind in ...)`. -/
def anySub2 (pats : List (List Char)) (s1 s2 : List Char) : Bool :=
  pats.any (fun p => hasSubstr s1 p || hasSubstr s2 p)

/-- Does `s` end with any of the given suffixes (Python `endswith` on a tuple)? -/
def endWithAny (pats : List (List Char)) (s : List Char) : Bool :=
  pats.any (fun p => endWith p s)

/-- The component of a POSIX path after the last slash (Python `Path.name`). -/
def lastComponent (path : List Char) : List Char :=
  (path.reverse.takeWhile (· ≠ '/')).reverse

/-- Index of the last '.' in a name, as in CPython `str.rfind('.')`. -/
def rfindDot (name : List Char) : Option Nat :=
  (name.reverse.findIdx? (· = '.')).map (fun j => name.length - 1 - j)

/-- Python `Path(name).suffix`: `name[i:]` when the last dot index `i`
satisfies `0 < i < len(name)-1`, else the empty string. -/
def pySuffix (name : List Char) : List Char :=
  match rfindDot name with
  | some i => if 0 < i ∧ i < name.length - 1 then name.drop i else []
  | none => []

/-- Python `Path(name).stem`: `name[:i]` under the same condition, else `name`. -/
def pyStem (name : List Char) : List Char :=
  match rfindDot name with
  | some i => if 0 < i ∧ i < name.length - 1 then name.take i else name
  | none => name

/-! ## file_analyzer.py: `_is_current_version` -/

/-- Archive indicator substrings from `_is_current_version`. -/
def archiveIndicators : List (List Char) :=
  ["old versions".data, "old mock-ups".data, "old mock ups".data, "old mockups".data,
   "drafts".data, "archive".data, "backup".data, "not used".data, "unused".data,
   "previous".data, "deprecated".data, "outdated".data, "old links".data]

/-- Embeds `FileAnalyzer._is_current_version`. -/
def isCurrentVersion (pathStr : List Char) : Bool :=
  let pathLower := pyLower pathStr
  let isArchived := anySub archiveIndicators pathLower
  if hasSubstr pathLower "print ready".data && !isArchived then true
  else if hasSubstr pathLower "draft".data then false
  else !isArchived

/-! ## file_analyzer.py: `_classify_asset_type` -/

def printIndicators : List (List Char) :=
  ["print ready".data, "print-ready".data, "printready".data, "production".data,
   "/final/".data, "sunset".data]

def mockupPathIndicators : List (List Char) :=
  ["mock ups/3d".data, "mock-ups/3d".data, "mockups/3d".data,
   "old mock-ups".data, "old mock ups".data, "old mockups".data,
   "3d mockups, images, flatbacks, other related".data,
   "01 - mockups".data, "00 - 3d".data]

def labelIndicators : List (List Char) :=
  ["label".data, "-l".data, "_l_".data, "19207l".data, "19207-l".data,
   "/labels/".data, "part 1 label".data, "part 2 label".data]

def boxIndicators : List (List Char) :=
  ["box".data, "-b".data, "_b_".data, "19207b".data, "19207-b".data,
   "/box/".data, "packaging".data]

def archiveTypeIndicators : List (List Char) :=
  ["old".data, "draft".data, "archive".data, "backup".data, "not used".data,
   "previous".data]

def templateIndicators : List (List Char) :=
  ["template".data, "dieline".data, "die line".data]

def docIndicators : List (List Char) :=
  ["report".data, "change".data, "spec".data, "instruction".data,
   ".docx".data, ".txt".data, ".pdf".data]

/-- Python `filename_lower.split('.')[-1] if '.' in filename_lower else ''`. -/
def afterLastDot (s : List Char) : List Char :=
  if s.contains '.' then (s.reverse.takeWhile (· ≠ '.')).reverse else []

/-- Embeds `FileAnalyzer._classify_asset_type`: the priority cascade,
first matching rule wins. -/
def classifyAssetType (pathStr filename : List Char) : List Char :=
  let pathLower := pyLower pathStr
  let filenameLower := pyLower filename
  if anySub printIndicators pathLower then "Print Ready".data
  else if anySub mockupPathIndicators pathLower &&
          endWithAny [".png".data, ".jpg".data, ".jpeg".data, ".psd".data] filenameLower then
    "3D Mockup".data
  else if hasSubstr pathLower "mock".data &&
          endWithAny [".png".data, ".jpg".data, ".jpeg".data] filenameLower then
    "3D Mockup".data
  else if anySub2 labelIndicators pathLower filenameLower then "Label Art".data
  else if anySub2 boxIndicators pathLower filenameLower then "Box Art".data
  else if anySub archiveTypeIndicators pathLower then "Archive".data
  else if anySub templateIndicators pathLower then "Template".data
  else if anySub docIndicators filenameLower then "Documentation".data
  else
    let fileExt := afterLastDot filenameLower
    if fileExt = "png".data ∨ fileExt = "jpg".data ∨ fileExt = "jpeg".data then
      "3D Mockup".data
    else if fileExt = "ai".data ∨ fileExt = "psd".data then
      if hasSubstr filenameLower "box".data || hasSubstr filenameLower "packaging".data then
        "Box Art".data
      else if hasSubstr filenameLower "label".data then "Label Art".data
      else "Box Art".data
    else "Other".data

/-! ## file_analyzer.py: `extract_product_info` and helpers -/

/-- A character matched by the `[-\s]` class of the product-code regex. -/
def isSepDash (c : Char) : Bool := c = '-' || isPySpace c

/-- Python regex `.+` at the current position: the longest nonempty run of
non-newline characters (fails when empty). -/
def dotPlus (l : List Char) : Option (List Char) :=
  let t := l.takeWhile (· ≠ '\n')
  if t.isEmpty then none else some t

/-- Greedy matching of `[-\s]*(.+)` after the digits: try consuming `j`
separator characters, backtracking from the maximal run down to zero until
`.+` can match. -/
def greedyDotPlus (rest : List Char) : Nat → Option (List Char)
  | 0 => dotPlus rest
  | j + 1 =>
    match dotPlus (rest.drop (j + 1)) with
    | some t => some t
    | none => greedyDotPlus rest j

/-- Embeds `re.match(r'(\d{5})[-\s]*(.+)', folder_name)` (the
`product_code_pattern` of `settings.CLASSIFICATION_RULES`), returning the two
capture groups. -/
def pyMatchProduct (s : List Char) : Option (List Char × List Char) :=
  let ds := s.take 5
  if ds.length = 5 ∧ ds.all Char.isDigit then
    let rest := s.drop 5
    let m := (rest.takeWhile isSepDash).length
    (greedyDotPlus rest m).map (fun g2 => (ds, g2))
  else none

/-- Word character for Python regex `\b` boundaries (`[A-Za-z0-9_]`). -/
def isWordChar (c : Char) : Bool :=
  ('a' ≤ c && c ≤ 'z') || ('A' ≤ c && c ≤ 'Z') || ('0' ≤ c && c ≤ '9') || c = '_'

/-- Case-insensitive prefix test. -/
def begWithCI (pat s : List Char) : Bool := begWith (pyLower pat) (pyLower s)

/-- Does a whole-word, case-insensitive occurrence of `old` start here, given
the previous character of the original string? -/
def wordHere (old : List Char) (prev : Option Char) (s : List Char) : Bool :=
  !old.isEmpty && begWithCI old s &&
  (match prev with | none => true | some c => !isWordChar c) &&
  (match s.drop old.length with | [] => true | c :: _ => !isWordChar c)

/-- Fuel-driven scan for `re.sub(r'\b old \b', new, s, flags=IGNORECASE)`:
non-overlapping matches replaced left to right. -/
def subWordCIAux (old new : List Char) : Option Char → Nat → List Char → List Char
  | _, 0, s => s
  | _, _ + 1, [] => []
  | prev, fuel + 1, c :: rest =>
    if wordHere old prev (c :: rest) then
      new ++ subWordCIAux old new ((( c :: rest).take old.length).getLast? ) fuel
        ((c :: rest).drop old.length)
    else
      c :: subWordCIAux old new (some c) fuel rest

/-- Embeds `re.sub(rf'\b{old}\b', new, name, flags=re.IGNORECASE)`. -/
def subWordCI (old new s : List Char) : List Char :=
  subWordCIAux old new none s.length s

/-- Scanner for `re.sub(r'[_\s]+', ' ', name)`: `prevSep` records whether the
previous character belonged to a separator run already replaced. -/
def collapseSepsAux (prevSep : Bool) : List Char → List Char
  | [] => []
  | c :: rest =>
    if c = '_' || isPySpace c then
      if prevSep then collapseSepsAux true rest
      else ' ' :: collapseSepsAux true rest
    else c :: collapseSepsAux false rest

/-- Embeds `re.sub(r'[_\s]+', ' ', name)`: every maximal run of underscores
and whitespace becomes a single space. -/
def collapseSeps (s : List Char) : List Char := collapseSepsAux false s

/-- Embeds `FileAnalyzer._clean_product_name`. -/
def cleanProductName (name0 : List Char) : List Char :=
  let name1 := pyStrip (collapseSeps name0)
  let name2 :=
    if begWith "Vital Planet".data name1 then
      pyStripChars " -_".data (name1.drop "Vital Planet".data.length)
    else name1
  let name3 :=
    if begWith "VP".data name2 then
      pyStripChars " -_".data (name2.drop "VP".data.length)
    else name2
  let name4 := subWordCI "FG".data "FG".data name3
  let name5 := subWordCI "SS".data "SS".data name4
  let name6 := subWordCI "ct".data "ct".data name5
  let name7 := subWordCI "VF".data "VF".data name6
  subWordCI "IC".data "IntenseCare".data name7

/-- Embeds `FileAnalyzer._determine_category`. -/
def determineCategory (name : List Char) : List Char :=
  let nameLower := pyLower name
  if hasSubstr nameLower "intensecare".data then
    if hasSubstr nameLower "fg".data then "IntenseCare FG".data
    else if hasSubstr nameLower "ss".data then "IntenseCare SS".data
    else "IntenseCare".data
  else if anySub ["vf".data, "vital flora".data] nameLower then
    if hasSubstr nameLower "fg".data then "Vital Flora FG".data
    else if hasSubstr nameLower "ss".data then "Vital Flora SS".data
    else "Vital Flora".data
  else if hasSubstr nameLower "organic flora".data then "Organic Flora".data
  else if anySub ["hope".data, "amazon".data, "kit".data] nameLower then "Amazon Kits".data
  else if anySub ["omega".data, "gut".data, "liver".data, "lax".data, "fiber".data,
                  "detox".data, "cleanse".data, "digest".data, "renew".data,
                  "boost".data, "pure".data] nameLower then
    "Digestive Health".data
  else "Other".data

/-- Result record of `extract_product_info`. -/
structure PyProductRec where
  code : List Char
  name : List Char
  category : List Char
deriving DecidableEq

/-- Embeds `FileAnalyzer.extract_product_info`. -/
def extractProductInfo (folderName : List Char) : Option PyProductRec :=
  match pyMatchProduct folderName with
  | none => none
  | some (code, g2) =>
    let name := cleanProductName (pyStrip g2)
    some ⟨code, name, determineCategory name⟩

/-! ## file_analyzer.py: `_should_include_file` and `classify_asset` -/

/-- Union of all extension groups of `settings.SCAN_EXTENSIONS`. -/
def allExtensions : List (List Char) :=
  [".png".data, ".jpg".data, ".jpeg".data, ".psd".data, ".ai".data, ".pdf".data,
   ".tiff".data, ".tif".data,
   ".docx".data, ".txt".data, ".indd".data, ".doc".data, ".rtf".data, ".md".data,
   ".zip".data, ".rar".data, ".7z".data,
   ".mp4".data, ".mov".data, ".avi".data, ".mkv".data]

def systemFiles : List (List Char) :=
  [".ds_store".data, "thumbs.db".data, "desktop.ini".data]

def tempPatterns : List (List Char) :=
  [".tmp".data, "~$".data, ".lock".data]

/-- Embeds `FileAnalyzer._should_include_file` (operating on the path string;
`Path.suffix` and `Path.name` are derived from it). -/
def shouldIncludeFile (path : List Char) : Bool :=
  let name := lastComponent path
  let extension := pyLower (pySuffix name)
  if !(allExtensions.contains extension) then false
  else if systemFiles.contains (pyLower name) then false
  else if tempPatterns.any (fun p => hasSubstr (pyLower name) p) then false
  else true

/-- Embeds `FileAnalyzer.classify_asset`, returning `(asset_type, is_current)`. -/
def classifyAsset (path : List Char) : List Char × Bool :=
  let pathStr := pyLower path
  let name := pyLower (lastComponent path)
  if !shouldIncludeFile path then ("Excluded".data, false)
  else (classifyAssetType pathStr name, isCurrentVersion pathStr)

/-! ## temporal_analyzer.py: confidence and activity scoring
Python floats are modelled as rationals. -/

/-- Pattern types produced by `_compile_date_patterns`. -/
def knownPatternTypes : List (List Char) :=
  ["art_date".data, "draft_date".data, "version_date".data, "iso_date".data,
   "compact_date".data, "month_year".data, "month_year_full".data]

/-- The `base_confidence` dictionary lookup of `_calculate_confidence`
(default 0.2). -/
def baseConfidence (patternType : List Char) : ℚ :=
  if patternType = "art_date".data then 2/5
  else if patternType = "draft_date".data then 1/2
  else if patternType = "version_date".data then 3/10
  else if patternType = "iso_date".data then 2/5
  else if patternType = "compact_date".data then 3/10
  else if patternType = "month_year".data then 2/5
  else if patternType = "month_year_full".data then 3/10
  else 1/5

/-- Embeds `TemporalAnalyzer._calculate_confidence`.  The `matchText`
argument is taken (as in the source) but unused. -/
def calculateConfidence (patternType _matchText filename : List Char) : ℚ :=
  let base0 := baseConfidence patternType
  let base1 := if hasSubstr filename "draft".data then base0 + 1/10 else base0
  let base2 :=
    if hasSubstr filename "final".data ||
        hasSubstr (pyLower filename) "print ready".data then
      base1 + 1/20
    else base1
  min base2 (3/5)

/-- Size tier of `_calculate_activity_score` (`stat.st_size` thresholds). -/
def addSizeTier (size : Nat) (score : ℚ) : ℚ :=
  if 50 * 1024 * 1024 < size then score + 2/5
  else if 10 * 1024 * 1024 < size then score + 3/10
  else if 1024 * 1024 < size then score + 1/5
  else if 100 * 1024 < size then score + 1/10
  else score

/-- Recency tier (`days_since_modified`, which can be negative for files
modified in the future). -/
def addRecencyTier (days : Int) (score : ℚ) : ℚ :=
  if days < 3 then score + 2/5
  else if days < 7 then score + 3/10
  else if days < 30 then score + 1/5
  else if days < 90 then score + 1/10
  else score

/-- Extension tier (`file_path.suffix.lower()`). -/
def addExtTier (ext : List Char) (score : ℚ) : ℚ :=
  if ext = ".psd".data ∨ ext = ".ai".data ∨ ext = ".indd".data then score + 3/10
  else if ext = ".pdf".data then score + 1/5
  else if ext = ".png".data ∨ ext = ".jpg".data ∨ ext = ".jpeg".data then score + 1/10
  else score

/-- Directory-context adjustment: additive boosts, or halving for archived
content. -/
def applyDirContext (pathLower : List Char) (score : ℚ) : ℚ :=
  if hasSubstr pathLower "print ready".data || hasSubstr pathLower "final".data then
    score + 1/5
  else if hasSubstr pathLower "draft".data ||
      hasSubstr pathLower "work in progress".data then
    score + 3/20
  else if hasSubstr pathLower "old".data || hasSubstr pathLower "archive".data ||
      hasSubstr pathLower "backup".data then
    score * (1/2)
  else score

/-- Filename-date nudge: `+ 0.05 * filename_dates[0]['confidence']` when the
list is nonempty. -/
def addFilenameDates (confidences : List ℚ) (score : ℚ) : ℚ :=
  match confidences with
  | [] => score
  | c :: _ => score + (1/20) * c

/-- Embeds `TemporalAnalyzer._calculate_activity_score`: inputs are the
byte size, integer day age, lower-cased extension, path string and the
confidence values of the extracted filename dates. -/
def calculateActivityScore (size : Nat) (days : Int) (ext pathStr : List Char)
    (confidences : List ℚ) : ℚ :=
  min
    (addFilenameDates confidences
      (applyDirContext (pyLower pathStr)
        (addExtTier (pyLower ext)
          (addRecencyTier days
            (addSizeTier size 0)))))
    1

/-! ## data_models.py: AssetInfo, AssetGroup, ProductInfo and 3D-mockup
grouping -/

/-- Embeds the `AssetInfo` dataclass. -/
structure AssetInfo where
  name : List Char
  path : List Char
  relative_path : List Char
  type : List Char
  is_current : Bool
  extension : List Char
  size : Nat
  modified : Option (List Char)
deriving DecidableEq

/-- Embeds the `AssetGroup` dataclass. -/
structure AssetGroup where
  base_name : List Char
  primary_asset : AssetInfo
  related_assets : List AssetInfo
  asset_type : List Char
  is_current : Bool
deriving DecidableEq

/-- Embeds the `ProductInfo` dataclass (with its dataclass defaults for the
three directory-context fields). -/
structure ProductInfo where
  code : List Char
  name : List Char
  category : List Char
  folder_path : List Char
  assets : List AssetInfo
  directory_source : List Char
  product_line : List Char
  status : List Char
deriving DecidableEq

/-- Insertion step of a stable insertion sort by a boolean `le`. -/
def insertBy (le : α → α → Bool) (a : α) : List α → List α
  | [] => [a]
  | b :: bs => if le a b then a :: b :: bs else b :: insertBy le a bs

/-- Stable sort by a boolean `le`; models Python's `sort`/`sorted` for the
distinct-key uses in this repository. -/
def sortBy (le : α → α → Bool) (l : List α) : List α :=
  l.foldr (insertBy le) []

/-- Lexicographic order on character lists by code point (Python string
comparison). -/
def strLe : List Char → List Char → Bool
  | [], _ => true
  | _ :: _, [] => false
  | a :: as, b :: bs =>
    if a = b then strLe as bs else decide (a.toNat < b.toNat)

/-- Embeds `AssetGroup.available_formats`: deduplicated, upper-cased,
sorted member extensions with dots removed. -/
def availableFormats (g : AssetGroup) : List (List Char) :=
  sortBy strLe
    ((g.related_assets.map
        (fun a => (a.extension.filter (· ≠ '.')).map Char.toUpper)).dedup)

/-- Embeds `ProductInfo._get_base_filename`: does a whole suffix match the
regex `\s*\(?\d+\)?$`? -/
def matchesTrailNum (l : List Char) : Bool :=
  let l1 := l.dropWhile isPySpace
  let l2 := match l1 with
    | '(' :: r => r
    | _ => l1
  let ds := l2.takeWhile Char.isDigit
  let l3 := l2.drop ds.length
  !ds.isEmpty && (l3.isEmpty || l3 = [')'])

/-- Embeds `re.sub(r'\s*\(?\d+\)?$', '', base)`: remove the leftmost suffix
matching the pattern, if any. -/
def removeTrailNum (base : List Char) : List Char :=
  match (List.range (base.length + 1)).find? (fun i => matchesTrailNum (base.drop i)) with
  | some i => base.take i
  | none => base

/-- Embeds `ProductInfo._get_base_filename`. -/
def getBaseFilename (filename : List Char) : List Char :=
  pyStrip (removeTrailNum (pyStem filename))

/-- The extension priority list of `_select_primary_asset`. -/
def priorityExtensions : List (List Char) :=
  [".png".data, ".jpg".data, ".jpeg".data, ".psd".data, ".ai".data]

/-- Embeds `ProductInfo._select_primary_asset` (PNG > JPG > JPEG > PSD > AI,
falling back to the first asset; `none` only on an empty list, where the
Python code would raise an IndexError). -/
def selectPrimaryAsset (assets : List AssetInfo) : Option AssetInfo :=
  match priorityExtensions.findSome?
      (fun ext => assets.find? (fun a => pyLower a.extension = ext)) with
  | some a => some a
  | none => assets.head?

/-- Insertion into the `defaultdict(list)` grouping map, preserving
insertion order of keys and of bucket members. -/
def addToGroup (k : List Char) (a : AssetInfo) :
    List (List Char × List AssetInfo) → List (List Char × List AssetInfo)
  | [] => [(k, [a])]
  | (k', l) :: rest =>
    if k = k' then (k', l ++ [a]) :: rest else (k', l) :: addToGroup k a rest

/-- Embeds `ProductInfo.group_3d_mockups`. -/
def group3dMockups (p : ProductInfo) : List AssetGroup :=
  let mockupAssets := p.assets.filter (fun a => a.type = "3D Mockup".data)
  if mockupAssets.isEmpty then []
  else
    let groups := mockupAssets.foldl
      (fun gs a => addToGroup (getBaseFilename a.name) a gs) []
    (groups.filter (fun g => 1 < g.2.length)).filterMap
      (fun g => (selectPrimaryAsset g.2).map
        (fun pa => ⟨g.1, pa, g.2, "3D Mockup".data, pa.is_current⟩))

/-! ## asset_scanner.py: `_process_product_directory` -/

/-- A file on disk, as far as the scanner reads it: its path and the stat
data used by `AssetInfo.from_file`. -/
structure FileRec where
  path : List Char
  size : Nat
  modified : Option (List Char)
deriving DecidableEq

/-- Python `file_path.relative_to(base)` for a file below `base`
(total here: the path is returned unchanged when it is not below `base`). -/
def relativeTo (base path : List Char) : List Char :=
  if begWith (base ++ ['/']) path then path.drop (base.length + 1) else path

/-- Embeds `AssetInfo.from_file`. -/
def assetInfoFromFile (f : FileRec) (base : List Char)
    (assetType : List Char) (isCurrent : Bool) : AssetInfo :=
  { name := lastComponent f.path
    path := f.path
    relative_path := relativeTo base f.path
    type := assetType
    is_current := isCurrent
    extension := pyLower (pySuffix (lastComponent f.path))
    size := f.size
    modified := f.modified }

/-- One file of the `rglob` loop of `_process_product_directory`: classify,
and keep the file only when its type is not "Excluded". -/
def toAsset (base : List Char) (f : FileRec) : Option AssetInfo :=
  let tc := classifyAsset f.path
  if tc.1 = "Excluded".data then none
  else some (assetInfoFromFile f base tc.1 tc.2)

/-- Sort key of `assets.sort(key=lambda x: (x.type, x.name))`. -/
def assetKeyLe (a b : AssetInfo) : Bool :=
  if a.type = b.type then strLe a.name b.name
  else strLe a.type b.type

/-- Embeds `AssetScanner._process_product_directory`: extract the product
from the directory name, classify each file, drop excluded files, sort the
remaining assets by (type, name). -/
def processProductDirectory (dirPath : List Char) (files : List FileRec) :
    Option ProductInfo :=
  match extractProductInfo (lastComponent dirPath) with
  | none => none
  | some info =>
    let assets := sortBy assetKeyLe (files.filterMap (toAsset dirPath))
    some
      { code := info.code
        name := info.name
        category := info.category
        folder_path := dirPath
        assets := assets
        directory_source := "human_current".data
        product_line := "Human".data
        status := "Current".data }

/-! ## asset_scanner.py: `save_index` and backup rotation

Abstract filesystem model: the primary index file is an optional content
(a list of write chunks), the backups directory is a list of
(mtime, content) pairs kept in ascending mtime order.  `save_to_file` opens
the primary with mode 'w' (truncating it) and writes chunk by chunk; an
injected failure after `k` chunks leaves the first `k` chunks on disk. -/

/-- File content, as the sequence of chunks `json.dump` writes. -/
abbrev Content := List Nat

/-- The on-disk state seen by `save_index`. -/
structure FSState where
  primary : Option Content
  backups : List (Nat × Content)
deriving DecidableEq

/-- Comparison of backup files by modification time. -/
def timeLeB (a b : Nat × Content) : Bool := decide (a.1 ≤ b.1)

/-- Embeds `AssetScanner._cleanup_old_backups` with the default
`max_backups = 5`: sort by mtime (newest first), delete everything after the
first five.  The retained files are kept in ascending mtime order. -/
def cleanupOldBackups (files : List (Nat × Content)) : List (Nat × Content) :=
  if 5 < files.length then ((sortBy timeLeB files).reverse.take 5).reverse
  else files

/-- Embeds `AssetIndex.save_to_file`: `open(file_path, 'w')` truncates the
primary, then the chunks are written in order; `failAfter = some k` injects
an I/O failure after `k` chunks.  Returns the new state and a success flag. -/
def saveToFile (st : FSState) (content : Content) (failAfter : Option Nat) :
    FSState × Bool :=
  match failAfter with
  | none => ({ st with primary := some content }, true)
  | some k =>
    if k < content.length then ({ st with primary := some (content.take k) }, false)
    else ({ st with primary := some content }, true)

/-- Embeds `AssetScanner.save_index` at time `t`: when a primary index
exists, copy it (never move) to a timestamped backup, prune old backups,
then write the new index in place. -/
def saveIndex (st : FSState) (t : Nat) (content : Content)
    (failAfter : Option Nat) : FSState × Bool :=
  let st1 :=
    match st.primary with
    | some c => { st with backups := cleanupOldBackups (st.backups ++ [(t, c)]) }
    | none => st
  saveToFile st1 content failAfter

/-- `n` successive successful `save_index` calls at times 1, 2, …, n, the
k-th writing content `v k`, starting from an absent index file. -/
def iterSave (v : Nat → Content) : Nat → FSState
  | 0 => ⟨none, []⟩
  | n + 1 => (saveIndex (iterSave v n) (n + 1) (v (n + 1)) none).1

/-! ## asset_scanner.py: `scan_multiple_directories` product merging -/

/-- Embeds the directory-context stamping of the merge loop
(`product.directory_source = dir_key`, product line from "human" in the key,
status from "current" in the key). -/
def applyContext (dirKey : List Char) (p : ProductInfo) : ProductInfo :=
  { p with
    directory_source := dirKey
    product_line := if hasSubstr dirKey "human".data then "Human".data else "Pet".data
    status :=
      if hasSubstr dirKey "current".data then "Current".data
      else "Work in Progress".data }

/-- Python dict assignment `m[code] = product`: replace the binding in
place, or append a new one. -/
def dictUpd (k : List Char) (v : ProductInfo) :
    List (List Char × ProductInfo) → List (List Char × ProductInfo)
  | [] => [(k, v)]
  | (k', v') :: rest =>
    if k = k' then (k, v) :: rest else (k', v') :: dictUpd k v rest

/-- Python dict lookup (first matching key). -/
def lookupD (k : List Char) : List (List Char × ProductInfo) → Option ProductInfo
  | [] => none
  | (k', v) :: rest => if k = k' then some v else lookupD k rest

/-- Python `code in all_products`. -/
def containsKey (m : List (List Char × ProductInfo)) (k : List Char) : Bool :=
  (lookupD k m).isSome

/-- Aggregation state of the merge: the `all_products` map and the
duplicate-code warnings logged so far. -/
abbrev MergeState := List (List Char × ProductInfo) × List (List Char)

/-- One write of the merge loop: log a warning when the code is already
present, then overwrite. -/
def mergeWrite (dirKey : List Char) (ac : MergeState)
    (cp : List Char × ProductInfo) : MergeState :=
  (dictUpd cp.1 (applyContext dirKey cp.2) ac.1,
    if containsKey ac.1 cp.1 then ac.2 ++ [cp.1] else ac.2)

/-- The `for code, product in products.items()` loop of
`scan_multiple_directories` for one scanned root (its directory key together
with the products found under it). -/
def processRoot (acc : MergeState)
    (root : List Char × List (List Char × ProductInfo)) : MergeState :=
  root.2.foldl (mergeWrite root.1) acc

/-- Embeds the aggregation of `scan_multiple_directories` over the scanned
roots, in scan order. -/
def mergeAll (roots : List (List Char × List (List Char × ProductInfo))) :
    MergeState :=
  roots.foldl processRoot ([], [])

/-- All (code, contextualized product) writes of a merge, in execution
order. -/
def mergeWrites (roots : List (List Char × List (List Char × ProductInfo))) :
    List (List Char × ProductInfo) :=
  (roots.map (fun r => r.2.map (fun cp => (cp.1, applyContext r.1 cp.2)))).flatten

/-- The value of the last write for a code. -/
def lookupLast (k : List Char) (l : List (List Char × ProductInfo)) :
    Option ProductInfo :=
  lookupD k l.reverse

/-- First-defined choice on options (used to state lookup lemmas). -/
def firstSome (a b : Option ProductInfo) : Option ProductInfo :=
  match a with
  | some v => some v
  | none => b

/-- A sample product record for concrete merge scenarios. -/
def sampleProduct (nm : List Char) : ProductInfo :=
  ⟨"11111".data, nm, "Other".data, "p".data, [],
    "human_current".data, "Human".data, "Current".data⟩

/-- Follows the spec's words (claim C3): does a folder name match the regex
`^\d{5}[-\s]+.+`, i.e. five digits, at least one dash/whitespace separator,
then at least one (non-newline) character? -/
def specProductRegexMatches (s : List Char) : Bool :=
  let ds := s.take 5
  (decide (ds.length = 5) && ds.all Char.isDigit) &&
  (let rest := s.drop 5
   let m := (rest.takeWhile isSepDash).length
   decide (1 ≤ m) &&
   (List.range (m + 1)).any
     (fun j => decide (1 ≤ j) && !((rest.drop j).takeWhile (· ≠ '\n')).isEmpty))

/-! ## Theorems -/

/-- Helper: the branch structure of `_is_current_version` over its three
boolean tests. -/
theorem isCurrent_branches (a p d : Bool) :
    (if p && !a then true else if d then false else !a) = (!a && (p || !d)) := by
  cases a <;> cases p <;> cases d <;> rfl

/-- C2 (amended): `_is_current_version` marks a path current exactly when it
contains no archive-indicator substring and either contains "print ready" or
does not contain "draft"; archive indicators override a "print ready"
indicator, not the other way round. -/
theorem isCurrentVersion_characterization (pathStr : List Char) :
    isCurrentVersion pathStr =
      (!anySub archiveIndicators (pyLower pathStr) &&
        (hasSubstr (pyLower pathStr) "print ready".data ||
          !hasSubstr (pyLower pathStr) "draft".data)) := by
  simp only [isCurrentVersion]
  exact isCurrent_branches _ _ _

/-- C2 counterexample: a path containing both the archive indicator
"archive" and "print ready" is classified as archived (`is_current = false`),
although the claim says the print-ready indicator always wins. -/
theorem isCurrentVersion_archive_beats_printready :
    hasSubstr (pyLower "archive/print ready/x.png".data) "print ready".data = true ∧
    anySub archiveIndicators (pyLower "archive/print ready/x.png".data) = true ∧
    isCurrentVersion "archive/print ready/x.png".data = false := by
  decide

/-- C1 (amended): rule 1 of the cascade wins for any path containing
"print ready" (also in the presence of "archive"); and any path containing
"mock" whose filename ends in ".png" classifies as "3D Mockup" — also when
the path contains "box" — provided no print-ready indicator matched first. -/
theorem classifyAssetType_cascade (pathStr filename : List Char) :
    (hasSubstr (pyLower pathStr) "print ready".data = true →
      hasSubstr (pyLower pathStr) "archive".data = true →
      classifyAssetType pathStr filename = "Print Ready".data) ∧
    (anySub printIndicators (pyLower pathStr) = false →
      hasSubstr (pyLower pathStr) "mock".data = true →
      endWith ".png".data (pyLower filename) = true →
      classifyAssetType pathStr filename = "3D Mockup".data) := by
  constructor
  · intro h1 _h2
    have hp : anySub printIndicators (pyLower pathStr) = true := by
      simp only [anySub, printIndicators, List.any_cons, Bool.or_eq_true]
      exact Or.inl h1
    simp only [classifyAssetType, hp, if_true]
  · intro h0 h1 h2
    have hEnds4 :
        endWithAny [".png".data, ".jpg".data, ".jpeg".data, ".psd".data]
          (pyLower filename) = true := by
      simp only [endWithAny, List.any_cons, Bool.or_eq_true]
      exact Or.inl h2
    have hEnds3 :
        endWithAny [".png".data, ".jpg".data, ".jpeg".data] (pyLower filename) = true := by
      simp only [endWithAny, List.any_cons, Bool.or_eq_true]
      exact Or.inl h2
    cases hm : anySub mockupPathIndicators (pyLower pathStr) <;>
      simp only [classifyAssetType, h0, hm, hEnds3, hEnds4, h1, Bool.false_and,
        Bool.true_and, Bool.and_self, if_true, if_false, Bool.false_eq_true]

/-- C1 witness: both cascade facts at concrete inputs. -/
theorem classifyAssetType_cascade_witness :
    classifyAssetType "print ready/archive/a.ai".data "a.ai".data = "Print Ready".data ∧
    classifyAssetType "x/mock box/a.png".data "a.png".data = "3D Mockup".data :=
  ⟨(classifyAssetType_cascade "print ready/archive/a.ai".data "a.ai".data).1
      (by decide) (by decide),
    (classifyAssetType_cascade "x/mock box/a.png".data "a.png".data).2
      (by decide) (by decide) (by decide)⟩

/-- Helper: every confidence produced by `_calculate_confidence` is
nonnegative (in fact at least the default base 0.2). -/
theorem calculateConfidence_nonneg (patternType matchText filename : List Char) :
    0 ≤ calculateConfidence patternType matchText filename := by
  have hb0 : 0 ≤ baseConfidence patternType := by
    unfold baseConfidence
    split_ifs <;> norm_num
  simp only [calculateConfidence]
  refine le_min ?_ (by norm_num)
  split_ifs <;> linarith

/-- Helper: evaluation of the base-confidence table, entry by entry. -/
theorem baseConfidence_art : baseConfidence ['a', 'r', 't', '_', 'd', 'a', 't', 'e'] = 2/5 := rfl

/-- Helper: evaluation of the base-confidence table. -/
theorem baseConfidence_draft : baseConfidence ['d', 'r', 'a', 'f', 't', '_', 'd', 'a', 't', 'e'] = 1/2 := rfl

/-- Helper: evaluation of the base-confidence table. -/
theorem baseConfidence_version : baseConfidence ['v', 'e', 'r', 's', 'i', 'o', 'n', '_', 'd', 'a', 't', 'e'] = 3/10 := rfl

/-- Helper: evaluation of the base-confidence table. -/
theorem baseConfidence_iso : baseConfidence ['i', 's', 'o', '_', 'd', 'a', 't', 'e'] = 2/5 := rfl

/-- Helper: evaluation of the base-confidence table. -/
theorem baseConfidence_compact : baseConfidence ['c', 'o', 'm', 'p', 'a', 'c', 't', '_', 'd', 'a', 't', 'e'] = 3/10 := rfl

/-- Helper: evaluation of the base-confidence table. -/
theorem baseConfidence_monthYear : baseConfidence ['m', 'o', 'n', 't', 'h', '_', 'y', 'e', 'a', 'r'] = 2/5 := rfl

/-- Helper: evaluation of the base-confidence table. -/
theorem baseConfidence_monthYearFull :
    baseConfidence ['m', 'o', 'n', 't', 'h', '_', 'y', 'e', 'a', 'r', '_', 'f', 'u', 'l', 'l'] = 3/10 := rfl

/-- C7: for each of the seven compiled pattern types the confidence of a
filename-extracted date is the per-pattern base value (all in [0.3, 0.5]) plus
0.1 for "draft" and 0.05 for "final"/"print ready", capped at 0.6; and for
every pattern type whatsoever the result is at most 0.6. -/
theorem calculateConfidence_spec (patternType matchText filename : List Char) :
    calculateConfidence patternType matchText filename ≤ 3/5 ∧
    (patternType ∈ knownPatternTypes →
      3/10 ≤ baseConfidence patternType ∧ baseConfidence patternType ≤ 1/2 ∧
      calculateConfidence patternType matchText filename =
        min (baseConfidence patternType
          + (if hasSubstr filename "draft".data then (1 : ℚ)/10 else 0)
          + (if hasSubstr filename "final".data ||
                hasSubstr (pyLower filename) "print ready".data then (1 : ℚ)/20 else 0))
          (3/5)) := by
  refine ⟨min_le_right _ _, fun hpt => ?_⟩
  simp only [knownPatternTypes, List.mem_cons, List.not_mem_nil, or_false] at hpt
  refine ⟨?_, ?_, ?_⟩
  · rcases hpt with rfl | rfl | rfl | rfl | rfl | rfl | rfl <;>
      simp only [baseConfidence_art, baseConfidence_draft, baseConfidence_version,
        baseConfidence_iso, baseConfidence_compact, baseConfidence_monthYear,
        baseConfidence_monthYearFull] <;> norm_num
  · rcases hpt with rfl | rfl | rfl | rfl | rfl | rfl | rfl <;>
      simp only [baseConfidence_art, baseConfidence_draft, baseConfidence_version,
        baseConfidence_iso, baseConfidence_compact, baseConfidence_monthYear,
        baseConfidence_monthYearFull] <;> norm_num
  · cases hd : hasSubstr filename "draft".data <;>
      cases hf : hasSubstr filename "final".data ||
        hasSubstr (pyLower filename) "print ready".data <;>
      simp [calculateConfidence, hd, hf, add_zero, add_assoc]

/-- C7 witness: the spec of `_calculate_confidence` at the concrete pattern
type "art_date" and filename "draft". -/
theorem calculateConfidence_spec_witness :
    3/10 ≤ baseConfidence "art_date".data ∧ baseConfidence "art_date".data ≤ 1/2 ∧
    calculateConfidence "art_date".data [] "draft".data =
      min (baseConfidence "art_date".data
        + (if hasSubstr "draft".data "draft".data then (1 : ℚ)/10 else 0)
        + (if hasSubstr "draft".data "final".data ||
              hasSubstr (pyLower "draft".data) "print ready".data then (1 : ℚ)/20 else 0))
        (3/5) :=
  (calculateConfidence_spec "art_date".data [] "draft".data).2 (by decide)

/-- Helper: the size tier keeps the score nonnegative. -/
theorem addSizeTier_nonneg (size : Nat) {s : ℚ} (hs : 0 ≤ s) :
    0 ≤ addSizeTier size s := by
  unfold addSizeTier
  split_ifs <;> linarith

/-- Helper: the recency tier keeps the score nonnegative. -/
theorem addRecencyTier_nonneg (days : Int) {s : ℚ} (hs : 0 ≤ s) :
    0 ≤ addRecencyTier days s := by
  unfold addRecencyTier
  split_ifs <;> linarith

/-- Helper: the extension tier keeps the score nonnegative. -/
theorem addExtTier_nonneg (ext : List Char) {s : ℚ} (hs : 0 ≤ s) :
    0 ≤ addExtTier ext s := by
  unfold addExtTier
  split_ifs <;> linarith

/-- Helper: the directory-context adjustment keeps the score nonnegative
(the archive branch halves it). -/
theorem applyDirContext_nonneg (pathLower : List Char) {s : ℚ} (hs : 0 ≤ s) :
    0 ≤ applyDirContext pathLower s := by
  unfold applyDirContext
  split_ifs <;> linarith

/-- Helper: the filename-date nudge keeps the score nonnegative when the
head confidence is nonnegative. -/
theorem addFilenameDates_nonneg (confidences : List ℚ)
    (hc : ∀ c ∈ confidences, 0 ≤ c) {s : ℚ} (hs : 0 ≤ s) :
    0 ≤ addFilenameDates confidences s := by
  cases confidences with
  | nil => exact hs
  | cons c t =>
    have h0 : 0 ≤ c := hc c (List.mem_cons_self c t)
    simp only [addFilenameDates]
    linarith

/-- C8: the activity score of `_calculate_activity_score` lies in [0, 1] for
every file size, day age, extension, path, and any filename-date list whose
confidences were produced by `_calculate_confidence`. -/
theorem calculateActivityScore_bounds (size : Nat) (days : Int)
    (ext pathStr : List Char) (confidences : List ℚ)
    (h : ∀ c ∈ confidences, ∃ pt mt fn, c = calculateConfidence pt mt fn) :
    0 ≤ calculateActivityScore size days ext pathStr confidences ∧
    calculateActivityScore size days ext pathStr confidences ≤ 1 := by
  constructor
  · simp only [calculateActivityScore]
    refine le_min ?_ (by norm_num)
    refine addFilenameDates_nonneg _ ?_ ?_
    · intro c hcmem
      obtain ⟨pt, mt, fn, rfl⟩ := h c hcmem
      exact calculateConfidence_nonneg pt mt fn
    · exact applyDirContext_nonneg _ (addExtTier_nonneg _
        (addRecencyTier_nonneg _ (addSizeTier_nonneg _ le_rfl)))
  · exact min_le_right _ _

/-- C8 witness: the bounds at a concrete input (empty filename-date list). -/
theorem calculateActivityScore_bounds_witness :
    0 ≤ calculateActivityScore 2048 5 ".psd".data "a/b.psd".data [] ∧
    calculateActivityScore 2048 5 ".psd".data "a/b.psd".data [] ≤ 1 :=
  calculateActivityScore_bounds 2048 5 ".psd".data "a/b.psd".data [] (by simp)

/-- C6: for a product whose assets are exactly Widget.png, Widget.psd and
Widget.jpg, all of type "3D Mockup" (sizes, current-flags, timestamps, and
paths arbitrary), `group_3d_mockups` returns exactly one group, whose primary
asset has extension ".png" and whose available formats are
["JPG", "PNG", "PSD"]; a lone Gadget.png with no same-base sibling produces
no group. -/
theorem group3dMockups_spec :
    (group3dMockups
        ⟨"11111".data, "W".data, "Other".data, "p".data,
          [⟨"Widget.png".data, "p/Widget.png".data, "Widget.png".data,
              "3D Mockup".data, true, ".png".data, 1, none⟩,
            ⟨"Widget.psd".data, "p/Widget.psd".data, "Widget.psd".data,
              "3D Mockup".data, true, ".psd".data, 2, none⟩,
            ⟨"Widget.jpg".data, "p/Widget.jpg".data, "Widget.jpg".data,
              "3D Mockup".data, true, ".jpg".data, 3, none⟩],
          "human_current".data, "Human".data, "Current".data⟩).map
        (fun g => (g.base_name, g.primary_asset.extension, availableFormats g,
          g.related_assets.length)) =
      [("Widget".data, ".png".data, ["JPG".data, "PNG".data, "PSD".data], 3)] ∧
    group3dMockups
        ⟨"11111".data, "W".data, "Other".data, "p".data,
          [⟨"Gadget.png".data, "p/Gadget.png".data, "Gadget.png".data,
              "3D Mockup".data, true, ".png".data, 1, none⟩],
          "human_current".data, "Human".data, "Current".data⟩ = [] := by
  decide

/-- Helper: membership is preserved by `insertBy`. -/
theorem mem_insertBy (le : α → α → Bool) (a x : α) (l : List α) :
    x ∈ insertBy le a l ↔ x = a ∨ x ∈ l := by
  induction l with
  | nil => simp [insertBy]
  | cons b bs ih =>
    simp only [insertBy]
    split
    · simp [List.mem_cons]
    · simp only [List.mem_cons, ih]
      tauto

/-- Helper: membership is preserved by `sortBy`. -/
theorem mem_sortBy (le : α → α → Bool) (x : α) (l : List α) :
    x ∈ sortBy le l ↔ x ∈ l := by
  induction l with
  | nil => simp [sortBy]
  | cons a as ih =>
    simp only [sortBy, List.foldr_cons] at *
    rw [mem_insertBy, ih]
    simp [List.mem_cons]

/-- C10: a product built by `_process_product_directory` records no asset of
type "Excluded" — such files are omitted entirely — and every file whose
(lower-cased) extension is outside the allow-list union of
`settings.SCAN_EXTENSIONS` classifies as ("Excluded", false). -/
theorem processProductDirectory_no_excluded (dirPath : List Char)
    (files : List FileRec) (p : ProductInfo)
    (hp : processProductDirectory dirPath files = some p)
    (f : FileRec)
    (hf : pyLower (pySuffix (lastComponent f.path)) ∉ allExtensions) :
    (∀ a ∈ p.assets, a.type ≠ "Excluded".data) ∧
    classifyAsset f.path = ("Excluded".data, false) := by
  constructor
  · intro a ha
    simp only [processProductDirectory] at hp
    split at hp
    · exact absurd hp (by simp)
    · cases Option.some.inj hp
      simp only [mem_sortBy] at ha
      obtain ⟨f0, _hf0, hsome⟩ := List.mem_filterMap.mp ha
      simp only [toAsset] at hsome
      split at hsome
      · exact absurd hsome (by simp)
      case isFalse hne =>
        cases Option.some.inj hsome
        exact hne
  · have hcont : allExtensions.contains
        (pyLower (pySuffix (lastComponent f.path))) = false := by
      cases hc : allExtensions.contains (pyLower (pySuffix (lastComponent f.path)))
      · rfl
      · exact absurd (List.mem_of_elem_eq_true hc) hf
    have hsi : shouldIncludeFile f.path = false := by
      simp only [shouldIncludeFile, hcont]
      rfl
    simp [classifyAsset, hsi]

/-- C10 witness: a concrete product directory and a concrete disallowed
extension. -/
theorem processProductDirectory_no_excluded_witness :
    (∀ a ∈ (⟨"12345".data, "Gut Health".data, "Digestive Health".data,
        "root/12345 - Gut Health".data, [], "human_current".data, "Human".data,
        "Current".data⟩ : ProductInfo).assets, a.type ≠ "Excluded".data) ∧
    classifyAsset "root/12345 - Gut Health/junk.xyz".data
      = ("Excluded".data, false) :=
  processProductDirectory_no_excluded "root/12345 - Gut Health".data []
    ⟨"12345".data, "Gut Health".data, "Digestive Health".data,
      "root/12345 - Gut Health".data, [], "human_current".data, "Human".data,
      "Current".data⟩ (by rfl)
    ⟨"root/12345 - Gut Health/junk.xyz".data, 7, none⟩ (by decide)

/-- C3 (amended): `extract_product_info` returns no product exactly when the
code's anchored pattern `(\d{5})[-\s]*(.+)` — zero or more separators — fails
to match, and on success the returned code is the leading five digits of the
folder name (the cleaned name may be empty). -/
theorem extractProductInfo_characterization (s : List Char) :
    (extractProductInfo s = none ↔ pyMatchProduct s = none) ∧
    (∀ p : PyProductRec, extractProductInfo s = some p →
      p.code = s.take 5 ∧ (s.take 5).all Char.isDigit = true ∧
        (s.take 5).length = 5) := by
  constructor
  · cases h : pyMatchProduct s with
    | none => simp [extractProductInfo, h]
    | some cg => simp [extractProductInfo, h]
  · intro p hp
    cases h : pyMatchProduct s with
    | none => rw [extractProductInfo, h] at hp; exact absurd hp (by simp)
    | some cg =>
      obtain ⟨c, g⟩ := cg
      rw [extractProductInfo, h] at hp
      have hcode : p.code = c := by
        cases hp.symm
        rfl
      have hc : c = s.take 5 ∧ ((s.take 5).all Char.isDigit = true ∧
          (s.take 5).length = 5) := by
        simp only [pyMatchProduct] at h
        split at h
        case isTrue hg =>
          obtain ⟨g2, _hg2, heq⟩ := Option.map_eq_some'.mp h
          refine ⟨?_, hg.2, hg.1⟩
          cases heq
          rfl
        case isFalse => exact absurd h (by simp)
      exact ⟨hcode.trans hc.1, hc.2.1, hc.2.2⟩

/-- C3 witness: the characterization applied to a concrete matching folder
name. -/
theorem extractProductInfo_characterization_witness :
    (⟨"12345".data, "Gut Health".data, "Digestive Health".data⟩ :
        PyProductRec).code = "12345 - Gut Health".data.take 5 ∧
    ("12345 - Gut Health".data.take 5).all Char.isDigit = true ∧
    ("12345 - Gut Health".data.take 5).length = 5 :=
  (extractProductInfo_characterization "12345 - Gut Health".data).2
    ⟨"12345".data, "Gut Health".data, "Digestive Health".data⟩ (by decide)

/-- C3 counterexample: "12345 VP" matches the claim's regex
`^\d{5}[-\s]+.+`, yet `extract_product_info` returns an empty cleaned name
(the "VP" prefix is stripped away), contradicting the claimed non-empty
name.  Moreover "12345Widget" fails the claim's regex (no separator) but
still yields a product, because the code's pattern uses `[-\s]*`. -/
theorem extractProductInfo_claim_false :
    specProductRegexMatches "12345 VP".data = true ∧
    extractProductInfo "12345 VP".data =
      some ⟨"12345".data, [], "Other".data⟩ ∧
    specProductRegexMatches "12345Widget".data = false ∧
    extractProductInfo "12345Widget".data =
      some ⟨"12345".data, "Widget".data, "Other".data⟩ := by
  decide

/-- Helper: a stable insertion sort leaves an already-sorted list unchanged. -/
theorem sortBy_eq_of_chain (le : α → α → Bool) (l : List α)
    (h : l.Chain' (fun a b => le a b = true)) : sortBy le l = l := by
  induction l with
  | nil => rfl
  | cons a as ih =>
    have htail : sortBy le as = as := ih h.tail
    rw [sortBy, List.foldr_cons]
    rw [show List.foldr (insertBy le) [] as = sortBy le as from rfl, htail]
    cases as with
    | nil => rfl
    | cons b bs =>
      have hab : le a b = true := (List.chain'_cons.mp h).1
      simp [insertBy, hab]

/-- C4 counterexample: `save_index` does not write to a temporary path and
atomically replace the primary — a failure mid-write leaves a partial
primary file (here `[3]`) that is neither the old content `[1, 2]` nor the
new content `[3, 4]`. -/
theorem saveIndex_not_atomic :
    ¬ ((saveIndex ⟨some [1, 2], []⟩ 1 [3, 4] (some 1)).1.primary = some [1, 2] ∨
      (saveIndex ⟨some [1, 2], []⟩ 1 [3, 4] (some 1)).1.primary = some [3, 4]) := by
  decide

/-- C4 (amended): `save_index` writes the new index directly over the
primary file, so a failure after `k` chunks leaves the truncated partial
content; but the backup made beforehand is a copy, never a move, so the old
content survives in the backups directory even when the write fails. -/
theorem saveIndex_backup_preserved (st : FSState) (t : Nat)
    (content c : Content) (k : Nat) (hc : st.primary = some c)
    (hchain : (st.backups ++ [(t, c)]).Chain' (fun a b => timeLeB a b = true)) :
    c ∈ (saveIndex st t content (some k)).1.backups.map Prod.snd ∧
    (k < content.length →
      (saveIndex st t content (some k)).1.primary = some (content.take k) ∧
      (saveIndex st t content (some k)).2 = false) := by
  have hb : (saveIndex st t content (some k)).1.backups
      = cleanupOldBackups (st.backups ++ [(t, c)]) := by
    simp only [saveIndex, hc, saveToFile]
    split <;> rfl
  refine ⟨?_, fun hk => ?_⟩
  · rw [hb]
    unfold cleanupOldBackups
    split
    · rw [sortBy_eq_of_chain _ _ hchain]
      have hmem : (t, c) ∈ ((st.backups ++ [(t, c)]).reverse.take 5).reverse := by
        rw [List.mem_reverse]
        rw [show (st.backups ++ [(t, c)]).reverse.take 5
            = (t, c) :: st.backups.reverse.take 4 from by
          rw [List.reverse_append]; rfl]
        exact List.mem_cons_self _ _
      exact List.mem_map_of_mem Prod.snd hmem
    · exact List.mem_map_of_mem Prod.snd
        (List.mem_append_right _ (List.mem_cons_self _ _))
  · constructor
    · simp only [saveIndex, hc, saveToFile]
      rw [if_pos hk]
    · simp only [saveIndex, hc, saveToFile]
      rw [if_pos hk]

/-- C4 witness: the amended behaviour at a concrete failing save. -/
theorem saveIndex_backup_preserved_witness :
    [1, 2] ∈ (saveIndex ⟨some [1, 2], []⟩ 1 [3, 4] (some 1)).1.backups.map Prod.snd ∧
    (1 < [3, 4].length →
      (saveIndex ⟨some [1, 2], []⟩ 1 [3, 4] (some 1)).1.primary
          = some ([3, 4].take 1) ∧
      (saveIndex ⟨some [1, 2], []⟩ 1 [3, 4] (some 1)).2 = false) :=
  saveIndex_backup_preserved ⟨some [1, 2], []⟩ 1 [3, 4] [1, 2] 1 rfl
    (by simp [List.chain'_singleton])

/-- Helper: closed form of `iterSave` from the sixth save on — the primary
holds the last write, the backups directory holds the five most recent
(time, previous content) pairs. -/
theorem iterSave_closed (v : Nat → Content) :
    ∀ N, 6 ≤ N → iterSave v N =
      ⟨some (v N),
        [(N - 4, v (N - 5)), (N - 3, v (N - 4)), (N - 2, v (N - 3)),
          (N - 1, v (N - 2)), (N, v (N - 1))]⟩ := by
  intro N hN
  induction N, hN using Nat.le_induction with
  | base => rfl
  | succ n hn ih =>
    have hlist : iterSave v (n + 1) =
        (saveIndex (iterSave v n) (n + 1) (v (n + 1)) none).1 := rfl
    rw [hlist, ih]
    have hchain :
        ([(n - 4, v (n - 5)), (n - 3, v (n - 4)), (n - 2, v (n - 3)),
          (n - 1, v (n - 2)), (n, v (n - 1))] ++ [(n + 1, v n)]).Chain'
          (fun a b => timeLeB a b = true) := by
      simp only [List.cons_append, List.nil_append, List.chain'_cons,
        List.chain'_singleton, timeLeB, decide_eq_true_eq, and_true]
      omega
    have hs := sortBy_eq_of_chain _ _ hchain
    simp only [saveIndex, saveToFile, cleanupOldBackups]
    rw [if_pos (by simp)]
    rw [show ([(n - 4, v (n - 5)), (n - 3, v (n - 4)), (n - 2, v (n - 3)),
        (n - 1, v (n - 2)), (n, v (n - 1))] : List (Nat × Content)) ++ [(n + 1, v n)]
      = [(n - 4, v (n - 5)), (n - 3, v (n - 4)), (n - 2, v (n - 3)),
        (n - 1, v (n - 2)), (n, v (n - 1)), (n + 1, v n)] from rfl] at hs ⊢
    rw [hs]
    rw [show n + 1 - 5 = n - 4 from by omega, show n + 1 - 4 = n - 3 from by omega,
      show n + 1 - 3 = n - 2 from by omega, show n + 1 - 2 = n - 1 from by omega,
      show n + 1 - 1 = n from by omega]
    rfl

/-- C5: after `N > 5` successive saves on an initially absent index file,
exactly five backup files remain, and they are the five most recently
modified ones (times `N-4 … N`, holding the contents written by saves
`N-5 … N-1`); older backups have been deleted. -/
theorem backupRetention (v : Nat → Content) (N : Nat) (hN : 5 < N) :
    (iterSave v N).backups =
      [(N - 4, v (N - 5)), (N - 3, v (N - 4)), (N - 2, v (N - 3)),
        (N - 1, v (N - 2)), (N, v (N - 1))] ∧
    (iterSave v N).backups.length = 5 := by
  rw [iterSave_closed v N (by omega)]
  exact ⟨rfl, rfl⟩

/-- C5 witness: backup retention after seven saves. -/
theorem backupRetention_witness :
    (iterSave (fun k => [k]) 7).backups =
      [(3, [2]), (4, [3]), (5, [4]), (6, [5]), (7, [6])] ∧
    (iterSave (fun k => [k]) 7).backups.length = 5 :=
  backupRetention (fun k => [k]) 7 (by norm_num)

/-- C1 counterexample: a path containing "mock" with a ".png" filename (and
also "box") is not classified "3D Mockup" when a print-ready indicator is
present — rule 1 fires first and returns "Print Ready". -/
theorem classifyAssetType_mock_png_not_universal :
    hasSubstr (pyLower "print ready/mock box.png".data) "mock".data = true ∧
    endWith ".png".data (pyLower "mock box.png".data) = true ∧
    hasSubstr (pyLower "print ready/mock box.png".data) "box".data = true ∧
    classifyAssetType "print ready/mock box.png".data "mock box.png".data
      = "Print Ready".data ∧
    classifyAssetType "print ready/mock box.png".data "mock box.png".data
      ≠ "3D Mockup".data := by
  decide

/-- Helper: `firstSome` is associative. -/
theorem firstSome_assoc (a b c : Option ProductInfo) :
    firstSome (firstSome a b) c = firstSome a (firstSome b c) := by
  cases a <;> cases b <;> rfl

/-- Helper: `firstSome` with an empty second choice. -/
theorem firstSome_none (a : Option ProductInfo) : firstSome a none = a := by
  cases a <;> rfl

/-- Helper: lookup distributes over append as a first-defined choice. -/
theorem lookupD_append (k : List Char) (l1 l2 : List (List Char × ProductInfo)) :
    lookupD k (l1 ++ l2) = firstSome (lookupD k l1) (lookupD k l2) := by
  induction l1 with
  | nil => rfl
  | cons a l ih =>
    obtain ⟨k', v⟩ := a
    simp only [List.cons_append, lookupD]
    split
    · rfl
    · exact ih

/-- Helper: lookup after a dict update. -/
theorem lookupD_dictUpd (k k' : List Char) (v : ProductInfo)
    (m : List (List Char × ProductInfo)) :
    lookupD k' (dictUpd k v m) = if k' = k then some v else lookupD k' m := by
  induction m with
  | nil =>
    simp only [dictUpd, lookupD]
  | cons a rest ih =>
    obtain ⟨k0, v0⟩ := a
    simp only [dictUpd]
    split
    case isTrue h =>
      subst h
      simp only [lookupD]
      by_cases hk : k' = k
      · simp [hk]
      · simp [hk]
    case isFalse h =>
      simp only [lookupD, ih]
      by_cases hk : k' = k0
      · subst hk
        rw [if_pos rfl, if_neg (fun he => h he.symm), if_pos rfl]
      · rw [if_neg hk]
        by_cases hk2 : k' = k
        · rw [if_pos hk2, if_pos hk2]
        · rw [if_neg hk2, if_neg hk2, if_neg hk]

/-- Helper: lookup after processing the writes of one root — the last write
of the root wins, otherwise the accumulator is unchanged. -/
theorem processRoot_lookup (dirKey : List Char)
    (entries : List (List Char × ProductInfo)) (k : List Char) :
    ∀ acc : MergeState,
      lookupD k (entries.foldl (mergeWrite dirKey) acc).1 =
        firstSome
          (lookupD k (entries.map
            (fun cp => (cp.1, applyContext dirKey cp.2))).reverse)
          (lookupD k acc.1) := by
  induction entries with
  | nil => intro acc; rfl
  | cons cp tl ih =>
    intro acc
    simp only [List.foldl_cons, List.map_cons, List.reverse_cons]
    rw [ih (mergeWrite dirKey acc cp), lookupD_append]
    rw [firstSome_assoc]
    congr 1
    simp only [mergeWrite, lookupD_dictUpd, lookupD]
    by_cases hk : k = cp.1
    · rw [if_pos hk, if_pos hk]
      cases lookupD k (tl.map (fun cp => (cp.1, applyContext dirKey cp.2))).reverse <;> rfl
    · rw [if_neg hk, if_neg hk]
      cases lookupD k (tl.map (fun cp => (cp.1, applyContext dirKey cp.2))).reverse <;> rfl

/-- Helper: lookup after merging a list of roots, over any accumulator. -/
theorem mergeAll_lookup_aux (k : List Char) :
    ∀ (roots : List (List Char × List (List Char × ProductInfo)))
      (acc : MergeState),
      lookupD k (roots.foldl processRoot acc).1 =
        firstSome (lookupD k (mergeWrites roots).reverse) (lookupD k acc.1) := by
  intro roots
  induction roots with
  | nil => intro acc; rfl
  | cons r rs ih =>
    intro acc
    simp only [List.foldl_cons]
    rw [ih (processRoot acc r)]
    simp only [processRoot] at *
    rw [processRoot_lookup r.1 r.2 k acc]
    rw [← firstSome_assoc]
    congr 1
    simp only [mergeWrites, List.map_cons, List.flatten_cons]
    rw [List.reverse_append, lookupD_append]

/-- Helper: the warning log only grows along the inner merge loop. -/
theorem mergeWarnings_mono (dirKey : List Char)
    (entries : List (List Char × ProductInfo)) (x : List Char) :
    ∀ acc : MergeState, x ∈ acc.2 →
      x ∈ (entries.foldl (mergeWrite dirKey) acc).2 := by
  induction entries with
  | nil => intro acc h; exact h
  | cons cp tl ih =>
    intro acc h
    refine ih (mergeWrite dirKey acc cp) ?_
    simp only [mergeWrite]
    split
    · exact List.mem_append_left _ h
    · exact h

/-- Helper: a key present in the map stays present through a merge write. -/
theorem containsKey_mergeWrite (dirKey : List Char) (acc : MergeState)
    (cp : List Char × ProductInfo) (k : List Char)
    (h : containsKey acc.1 k = true) :
    containsKey (mergeWrite dirKey acc cp).1 k = true := by
  simp only [containsKey, mergeWrite, lookupD_dictUpd]
  split
  · rfl
  · exact h

/-- Helper: an entry for a code already present in the aggregation map logs
a duplicate warning. -/
theorem mergeWarn_of_dup (dirKey : List Char)
    (entries : List (List Char × ProductInfo)) (k : List Char)
    (p : ProductInfo) :
    ∀ acc : MergeState, containsKey acc.1 k = true → (k, p) ∈ entries →
      k ∈ (entries.foldl (mergeWrite dirKey) acc).2 := by
  induction entries with
  | nil => intro acc _ h; exact absurd h (List.not_mem_nil _)
  | cons cp tl ih =>
    intro acc hck hmem
    rcases List.mem_cons.mp hmem with heq | htl
    · refine mergeWarnings_mono dirKey tl k (mergeWrite dirKey acc cp) ?_
      simp only [mergeWrite, ← heq, hck, if_true]
      exact List.mem_append_right _ (List.mem_cons_self _ _)
    · exact ih (mergeWrite dirKey acc cp) (containsKey_mergeWrite dirKey acc cp k hck) htl

/-- C9: the aggregation of `scan_multiple_directories` is last-writer-wins —
the final map sends each code to its last write (the product of the last
root that produced the code, stamped with that root's directory context) —
and a product code observed while already present in the aggregation map is
logged as a duplicate warning. -/
theorem mergeAll_last_writer_wins
    (roots : List (List Char × List (List Char × ProductInfo))) (k : List Char) :
    lookupD k (mergeAll roots).1 = lookupLast k (mergeWrites roots) ∧
    (∀ (r : List Char × List (List Char × ProductInfo)) (p : ProductInfo),
      containsKey (mergeAll roots).1 k = true → (k, p) ∈ r.2 →
      k ∈ (processRoot (mergeAll roots) r).2 ∧
      mergeAll (roots ++ [r]) = processRoot (mergeAll roots) r) := by
  constructor
  · rw [mergeAll, mergeAll_lookup_aux k roots ([], [])]
    rw [lookupLast]
    exact firstSome_none _
  · intro r p hck hmem
    constructor
    · exact mergeWarn_of_dup r.1 r.2 k p (mergeAll roots) hck hmem
    · rw [mergeAll, mergeAll, List.foldl_append]
      rfl

/-- C9 witness: two roots producing the same code "11111" — the second root
logs a warning and its product (with its directory context) is the final
binding. -/
theorem mergeAll_last_writer_wins_witness :
    lookupD "11111".data
        (mergeAll [("human_current".data,
          [("11111".data, sampleProduct "A".data)])]).1 =
      lookupLast "11111".data
        (mergeWrites [("human_current".data,
          [("11111".data, sampleProduct "A".data)])]) ∧
    ("11111".data ∈ (processRoot
        (mergeAll [("human_current".data, [("11111".data, sampleProduct "A".data)])])
        ("pet_current".data, [("11111".data, sampleProduct "B".data)])).2 ∧
      mergeAll ([("human_current".data, [("11111".data, sampleProduct "A".data)])] ++
          [("pet_current".data, [("11111".data, sampleProduct "B".data)])]) =
        processRoot
          (mergeAll [("human_current".data, [("11111".data, sampleProduct "A".data)])])
          ("pet_current".data, [("11111".data, sampleProduct "B".data)])) :=
  ⟨(mergeAll_last_writer_wins
      [("human_current".data, [("11111".data, sampleProduct "A".data)])]
      "11111".data).1,
    (mergeAll_last_writer_wins
      [("human_current".data, [("11111".data, sampleProduct "A".data)])]
      "11111".data).2
      ("pet_current".data, [("11111".data, sampleProduct "B".data)])
      (sampleProduct "B".data) (by decide) (List.mem_cons_self _ _)⟩

end VPMC
